import Mathlib

/-!
Verification of the AIRC MCP server (src/index.js) against its specification.

The embedding models the session/request-translation layer of the server:

* JavaScript / JSON values are modelled by the inductive `Json`, including the
  distinguished `undefined` value so that absent object fields (which read back as
  `undefined` in JavaScript) are representable.  JavaScript truthiness is the
  function `Json.truthy`, and the short-circuiting `a || b` idiom is `jsOr`.
* The process-wide mutable `session` object of src/index.js is the structure
  `Session`; operations that mutate it return the new session explicitly.
* Each tool-implementation function of src/index.js becomes a pure Lean
  function.  The one `await apiRequest(...)` a function performs is modelled
  by a parameter `net : Except String Json`: `Except.ok r` is the parsed JSON
  body returned by the registry, `Except.error e` is a network-layer exception
  with message `e`.  Each function also returns the list of HTTP requests it
  issued (endpoint, method, JSON body), so that "performs no network request"
  is the statement that this list is empty.  Headers (`Content-Type`, the
  bearer token) and the registry base URL are uniform in `apiRequest` and are
  not part of the claims, so `Request` records endpoint, method and body only.
* The `CallToolRequestSchema` handler (the tool dispatcher) is `dispatch`,
  switching on a `ToolCall`; the `default: throw new Error(...)` branch is the
  `ToolCall.unknown` case.  Tool arguments are typed as the tool catalog's
  input schemas declare them.  The try/catch of the handler is the match on
  the `Except` produced by `runTool`.  The response envelope's `text` field
  holds `JSON.stringify(result, null, 2)`; serialization itself is not
  modelled, so `ContentItem.text` carries the value being serialized.
* Property access on `null`/`undefined` (which would throw in JavaScript) is
  modelled as yielding `undefined`; no flow specified here reads a property of a
  null response.  Percent-encoding by `URLSearchParams.toString` is elided:
  the query string is modelled as the ordered key/value list it serializes.
-/

/-- A JavaScript/JSON value. `undefined` models JavaScript `undefined`, the result
of reading an absent object field. -/
inductive Json where
  | undefined
  | null
  | bool (b : Bool)
  | num (n : Int)
  | str (s : String)
  | arr (elems : List Json)
  | obj (fields : List (String × Json))

mutual

/-- JavaScript string coercion (template literals, `URLSearchParams` values):
`String(x)`. Arrays stringify as their elements joined by commas; objects as
"[object Object]". -/
def Json.jsString : Json → String
  | .undefined => "undefined"
  | .null => "null"
  | .bool true => "true"
  | .bool false => "false"
  | .num n => toString n
  | .str s => s
  | .arr elems => Json.jsStringList elems
  | .obj _ => "[object Object]"

/-- Elements of an array joined by commas, as `Array.prototype.toString`. -/
def Json.jsStringList : List Json → String
  | [] => ""
  | [x] => Json.jsString x
  | x :: y :: xs => Json.jsString x ++ "," ++ Json.jsStringList (y :: xs)

end

/-- Property read `v[key]`: the stored value on objects, `undefined` otherwise
(absent fields read as `undefined`). -/
def Json.getField : Json → String → Json
  | .obj fields, key =>
      match fields.lookup key with
      | some v => v
      | none => .undefined
  | _, _ => .undefined

/-- JavaScript truthiness of a value. -/
def Json.truthy : Json → Bool
  | .undefined => false
  | .null => false
  | .bool b => b
  | .num n => n != 0
  | .str s => s != ""
  | .arr _ => true
  | .obj _ => true

/-- The JavaScript idiom `a || b`: `a` when truthy, else `b`. -/
def jsOr (a b : Json) : Json :=
  if a.truthy then a else b

/-- The JavaScript strict comparison `x !== false`. -/
def jsNotStrictFalse : Json → Bool
  | .bool false => false
  | _ => true

/-- The JavaScript strict comparison `x === s` against a string literal. -/
def jsStrictEqStr : Json → String → Bool
  | .str x, s => x == s
  | _, _ => false

/-- The JavaScript strict comparison `x === n` against a number literal. -/
def jsStrictEqNum : Json → Int → Bool
  | .num x, n => x == n
  | _, _ => false

/-- One HTTP request issued through `apiRequest` in src/index.js: the endpoint
appended to the registry base URL, the method, and the `JSON.stringify`-ed
body when present. -/
structure Request where
  endpoint : String
  method : String
  body : Option Json

/-- The process-wide `session` object of src/index.js (lines 31-35). -/
structure Session where
  handle : Json
  token : Json
  registered : Bool

/-- The initial session: `{ handle: null, token: null, registered: false }`. -/
def initialSession : Session :=
  { handle := Json.null, token := Json.null, registered := false }

/-- `h.replace('@', '')` from src/index.js: `String.prototype.replace` with a
string pattern removes only the FIRST occurrence of `'@'`. -/
def removeFirstAt : List Char → List Char
  | [] => []
  | c :: cs => if c = '@' then cs else c :: removeFirstAt cs

/-- Handle normalization as the code performs it: `handle.replace('@', '')`,
removing the first occurrence of `'@'` from the string. -/
def normalizeHandle (s : String) : String :=
  ⟨removeFirstAt s.data⟩

/-- `register(handle, workingOn)` (src/index.js lines 58-76). Issues the
registration POST; on a response with truthy `success` and truthy `token`
mutates the session and reports success, otherwise leaves the session as it
was and reports the response's error (or `'Registration failed'`). -/
def register (s : Session) (handle : String) (workingOn : Option String)
    (net : Except String Json) : List Request × Except String (Session × Json) :=
  let req : Request :=
    ⟨"/api/presence", "POST",
      some (Json.obj [("action", Json.str "register"), ("username", Json.str handle),
        ("workingOn", Json.str (workingOn.getD "Using AIRC MCP"))])⟩
  match net with
  | .error e => ([req], .error e)
  | .ok result =>
      if (result.getField "success").truthy && (result.getField "token").truthy then
        ([req], .ok
          ({ handle := Json.str handle, token := result.getField "token", registered := true },
            Json.obj [("success", Json.bool true),
              ("message", Json.str ("Registered as @" ++ handle))]))
      else
        ([req], .ok (s, Json.obj [("success", Json.bool false),
          ("error", jsOr (result.getField "error") (Json.str "Registration failed"))]))

/-- `who()` (src/index.js lines 78-81): GET presence, `result.users || []`. -/
def who (net : Except String Json) : List Request × Except String Json :=
  ([⟨"/api/presence", "GET", none⟩],
   net.map fun result => jsOr (result.getField "users") (Json.arr []))

/-- `send(to, text, type)` (src/index.js lines 83-99). Unregistered sessions
short-circuit with a structured failure and no request; otherwise the message
POST is issued with the recipient normalized, and the registry's response is
returned as-is. -/
def send (s : Session) (toHandle text : String) (ty : Option String)
    (net : Except String Json) : List Request × Except String Json :=
  if s.registered = false then
    ([], .ok (Json.obj [("success", Json.bool false),
      ("error", Json.str "Not registered. Call airc_register first.")]))
  else
    ([⟨"/api/messages", "POST",
        some (Json.obj [("from", s.handle), ("to", Json.str (normalizeHandle toHandle)),
          ("text", Json.str text), ("type", Json.str (ty.getD "text"))])⟩],
     net)

/-- `poll(since)` (src/index.js lines 101-111). Unregistered sessions
short-circuit; otherwise GET messages (appending `&since=` only for a truthy
`since`) and return `result.messages || []`. -/
def poll (s : Session) (since : Option Int)
    (net : Except String Json) : List Request × Except String Json :=
  if s.registered = false then
    ([], .ok (Json.obj [("success", Json.bool false),
      ("error", Json.str "Not registered. Call airc_register first.")]))
  else
    let endpoint := "/api/messages?user=" ++ s.handle.jsString ++
      (match since with
       | some t => if t != 0 then "&since=" ++ toString t else ""
       | none => "")
    ([⟨endpoint, "GET", none⟩],
     net.map fun result => jsOr (result.getField "messages") (Json.arr []))

/-- `heartbeat()` (src/index.js lines 113-125). Unregistered sessions
short-circuit; otherwise POST the heartbeat and return the response as-is. -/
def heartbeat (s : Session) (net : Except String Json) :
    List Request × Except String Json :=
  if s.registered = false then
    ([], .ok (Json.obj [("success", Json.bool false), ("error", Json.str "Not registered.")]))
  else
    ([⟨"/api/presence", "POST",
        some (Json.obj [("action", Json.str "heartbeat"), ("username", s.handle)])⟩],
     net)

/-- `consent(handle, action)` (src/index.js lines 127-140). Unregistered
sessions short-circuit; otherwise POST the consent with the handle
normalized, returning the response as-is. -/
def consent (s : Session) (handle : String) (action : Option String)
    (net : Except String Json) : List Request × Except String Json :=
  if s.registered = false then
    ([], .ok (Json.obj [("success", Json.bool false), ("error", Json.str "Not registered.")]))
  else
    ([⟨"/api/consent", "POST",
        some (Json.obj [("action", Json.str (action.getD "accept")),
          ("from", s.handle), ("handle", Json.str (normalizeHandle handle))])⟩],
     net)

/-- The `options` record taken by `discover` (src/index.js line 143).  Field
values are arbitrary JavaScript values; a field the caller did not supply
reads as `undefined`. -/
structure DiscoverOptions where
  capability : Json
  type : Json
  model : Json
  query : Json
  available : Json
  limit : Json

/-- The `URLSearchParams` built by `discover` (src/index.js lines 144-151), as
the ordered key/value list it serializes: each filter is set only when
truthy, `available=true` is set unless `options.available === false`, and
`limit` is set to `options.limit || '10'` (values coerced to strings). -/
def discoverParams (options : DiscoverOptions) : List (String × String) :=
  (if options.capability.truthy then [("capability", options.capability.jsString)] else []) ++
  (if options.type.truthy then [("type", options.type.jsString)] else []) ++
  (if options.model.truthy then [("model", options.model.jsString)] else []) ++
  (if options.query.truthy then [("q", options.query.jsString)] else []) ++
  (if jsNotStrictFalse options.available then [("available", "true")] else []) ++
  [("limit", (jsOr options.limit (Json.str "10")).jsString)]

/-- Serialization of the parameter list (percent-encoding elided). -/
def queryString (params : List (String × String)) : String :=
  String.intercalate "&" (params.map fun p => p.1 ++ "=" ++ p.2)

/-- The per-agent reshaping `discover` applies to each entry of
`result.agents` (src/index.js lines 162-169). -/
def reshapeAgent (a : Json) : Json :=
  Json.obj [("handle", Json.str ("@" ++ (a.getField "handle").jsString)),
    ("type", a.getField "type"),
    ("model", a.getField "model"),
    ("capabilities", a.getField "capabilities"),
    ("status", a.getField "status"),
    ("working_on", a.getField "working_on")]

/-- The response shaping of `discover` (src/index.js lines 155-174): failure
passthrough with a `'Discovery failed'` default, `result.agents?.map(...) || []`
for the agent list, and a `suggestion` keyed on `result.total === 0`. -/
def discoverResult (result : Json) : Json :=
  if (result.getField "success").truthy = false then
    Json.obj [("success", Json.bool false),
      ("error", jsOr (result.getField "error") (Json.str "Discovery failed"))]
  else
    Json.obj [("success", Json.bool true),
      ("agents",
        match result.getField "agents" with
        | .arr as => Json.arr (as.map reshapeAgent)
        | _ => Json.arr []),
      ("total", result.getField "total"),
      ("suggestion", Json.str
        (if jsStrictEqNum (result.getField "total") 0 then
          "No agents found. Try a broader search or check back later."
        else
          "Found " ++ (result.getField "total").jsString ++
            " agent(s). Use airc_capabilities to learn more about a specific agent."))]

/-- `discover(options)` (src/index.js lines 143-175): GET the agents endpoint
with the built query string and shape the response. -/
def discover (options : DiscoverOptions) (net : Except String Json) :
    List Request × Except String Json :=
  ([⟨"/api/agents?" ++ queryString (discoverParams options), "GET", none⟩],
   net.map discoverResult)

/-- The response shaping of `capabilities` (src/index.js lines 181-200):
failure passthrough when `result.error` is truthy, else the success record
with defensive defaults (`supported || ['text']`, `primary || 'text'`,
`status || 'unknown'`, `accepts_messages !== false`) and a suggestion keyed
on `result.availability?.status === 'offline'`. -/
def capabilitiesResult (result : Json) : Json :=
  if (result.getField "error").truthy then
    Json.obj [("success", Json.bool false), ("error", result.getField "error"),
      ("message", result.getField "message")]
  else
    Json.obj [("success", Json.bool true),
      ("handle", Json.str ("@" ++ (result.getField "handle").jsString)),
      ("is_agent", result.getField "is_agent"),
      ("type", result.getField "type"),
      ("model", result.getField "model"),
      ("capabilities", jsOr ((result.getField "capabilities").getField "supported")
        (Json.arr [Json.str "text"])),
      ("primary_capability", jsOr ((result.getField "capabilities").getField "primary")
        (Json.str "text")),
      ("availability", jsOr ((result.getField "availability").getField "status")
        (Json.str "unknown")),
      ("accepts_messages",
        Json.bool (jsNotStrictFalse ((result.getField "availability").getField "accepts_messages"))),
      ("input_schemas", result.getField "input_schemas"),
      ("examples", result.getField "examples"),
      ("suggestion", Json.str
        (if jsStrictEqStr ((result.getField "availability").getField "status") "offline" then
          "Agent is offline. Message will be delivered when they return."
        else
          "Agent is available. Use airc_send to message them."))]

/-- `capabilities(handle)` (src/index.js lines 177-201): GET the identity
endpoint for the normalized handle and shape the response. -/
def capabilities (handle : String) (net : Except String Json) :
    List Request × Except String Json :=
  ([⟨"/api/identity/" ++ normalizeHandle handle ++ "/capabilities", "GET", none⟩],
   net.map capabilitiesResult)

/-- The arguments the dispatcher reads for `airc_discover` (src/index.js
lines 383-390).  `limit` is listed because a caller may pass it, but the
dispatcher never reads it. -/
structure DiscoverArgs where
  capability : Json
  query : Json
  type : Json
  model : Json
  available : Json
  limit : Json

/-- The options object literal the dispatcher builds for `discover`
(src/index.js lines 384-390): exactly `capability`, `query`, `type`, `model`
and `available` are copied from the caller's arguments; no `limit` property
exists on it, so `options.limit` reads as `undefined`. -/
def dispatchDiscoverOptions (args : DiscoverArgs) : DiscoverOptions :=
  { capability := args.capability, type := args.type, model := args.model,
    query := args.query, available := args.available, limit := Json.undefined }

/-- One incoming tool call: the switch cases of the `CallToolRequestSchema`
handler (src/index.js lines 364-397), with arguments typed as the tool
catalog's input schemas declare them (optional parameters read as absent when
the caller omits them).  `unknown nm` is a call whose name matches no case. -/
inductive ToolCall where
  | register (handle : String) (workingOn : Option String)
  | who
  | send (toHandle text : String) (ty : Option String)
  | poll (since : Option Int)
  | heartbeat
  | consent (handle : String) (action : Option String)
  | discover (args : DiscoverArgs)
  | capabilities (handle : String)
  | unknown (nm : String)

/-- The body of the dispatcher's `try` block: run the named operation,
threading the registry interaction `net`; the `default` case throws
`Unknown tool: <name>`.  A resulting `Except.error` is an exception escaping
the `try` block. -/
def runTool (s : Session) (call : ToolCall) (net : Except String Json) :
    Except String (Session × Json) :=
  match call with
  | .register h w => (register s h w net).2
  | .who => (who net).2.map fun r => (s, r)
  | .send toHandle text ty => (send s toHandle text ty net).2.map fun r => (s, r)
  | .poll since => (poll s since net).2.map fun r => (s, r)
  | .heartbeat => (heartbeat s net).2.map fun r => (s, r)
  | .consent h a => (consent s h a net).2.map fun r => (s, r)
  | .discover args => (discover (dispatchDiscoverOptions args) net).2.map fun r => (s, r)
  | .capabilities h => (capabilities h net).2.map fun r => (s, r)
  | .unknown nm => .error ("Unknown tool: " ++ nm)

/-- One item of the response envelope's `content` array.  `text` holds the
value whose `JSON.stringify` rendering the code places there. -/
structure ContentItem where
  type : String
  text : Json

/-- The dispatcher's response envelope.  The success branch of the handler
produces no `isError` property, which reads back as falsy; it is modelled as
`isError := false`. -/
structure Envelope where
  content : List ContentItem
  isError : Bool

/-- The `CallToolRequestSchema` handler (src/index.js lines 358-418): run the
tool inside `try`, wrap its result in a text-content envelope; any exception
is caught and converted to an `{ error: message }` envelope flagged
`isError: true`.  The session component is the process state after the call. -/
def dispatch (s : Session) (call : ToolCall) (net : Except String Json) :
    Session × Envelope :=
  match runTool s call net with
  | .ok (s2, r) => (s2, { content := [{ type := "text", text := r }], isError := false })
  | .error e =>
      (s, { content := [{ type := "text", text := Json.obj [("error", Json.str e)] }],
            isError := true })

/-- The session transition of one dispatched tool call. -/
def step (s : Session) (call : ToolCall) (net : Except String Json) : Session :=
  (dispatch s call net).1

/-- The session after a sequence of dispatched tool calls, each with its own
registry interaction. -/
def runTrace : Session → List (ToolCall × Except String Json) → Session
  | s, [] => s
  | s, c :: rest => runTrace (step s c.1 c.2) rest

/-- A session state reachable from the initial state by some sequence of tool
calls with arbitrary registry responses. -/
def reachable (s : Session) : Prop :=
  ∃ tr : List (ToolCall × Except String Json), runTrace initialSession tr = s

/-- The session invariant claimed by the spec: `registered` holds exactly when
`token` is non-null and exactly when `handle` is non-null. -/
def sessionConsistent (s : Session) : Prop :=
  (s.registered = true ↔ s.token ≠ Json.null) ∧
  (s.registered = true ↔ s.handle ≠ Json.null)

/-- Removing the first `'@'` from a list without `'@'` changes nothing. -/
theorem removeFirstAt_of_count_zero (l : List Char) (h : l.count '@' = 0) :
    removeFirstAt l = l := by
  induction l with
  | nil => rfl
  | cons c cs ih =>
      rw [List.count_cons] at h
      by_cases hc : c = '@'
      · simp [hc] at h
      · simp [removeFirstAt, hc, ih (by simpa [hc] using h)]

/-- Removing the first `'@'` decrements the number of `'@'` occurrences. -/
theorem count_removeFirstAt (l : List Char) :
    (removeFirstAt l).count '@' = l.count '@' - 1 := by
  induction l with
  | nil => rfl
  | cons c cs ih =>
      by_cases hc : c = '@'
      · simp [removeFirstAt, hc, List.count_cons]
      · simp only [removeFirstAt, if_neg hc, List.count_cons, ih]
        simp [hc]

/-- C1 counterexample: on `"@@a"` the code's normalization
(`String.prototype.replace` with a string pattern removes only the first
occurrence of `'@'`) is not idempotent: one application yields `"@a"`, a
second yields `"a"`. -/
theorem normalizeHandle_not_idempotent_on_double_at :
    normalizeHandle "@@a" = "@a" ∧
    normalizeHandle (normalizeHandle "@@a") = "a" ∧
    normalizeHandle (normalizeHandle "@@a") ≠ normalizeHandle "@@a" := by
  decide

/-- C1 (amended): handle normalization is idempotent on every string that
contains at most one `'@'` (in particular on every handle of the documented
alphanumeric form, with or without the `'@'` prefix), and
`normalize "@a" = normalize "a" = "a"`. -/
theorem normalizeHandle_idempotent_of_at_most_one_at (s : String)
    (h : s.data.count '@' ≤ 1) :
    normalizeHandle (normalizeHandle s) = normalizeHandle s ∧
    normalizeHandle "@a" = "a" ∧ normalizeHandle "a" = "a" := by
  refine ⟨?_, by decide, by decide⟩
  have h0 : (removeFirstAt s.data).count '@' = 0 := by
    rw [count_removeFirstAt]; omega
  show (⟨removeFirstAt (removeFirstAt s.data)⟩ : String) = normalizeHandle s
  rw [removeFirstAt_of_count_zero _ h0]
  rfl

/-- Witness for C1 (amended) at the concrete input `"@a"`. -/
theorem normalizeHandle_idempotent_witness :
    ("@a" : String).data.count '@' ≤ 1 ∧
    normalizeHandle (normalizeHandle "@a") = normalizeHandle "@a" :=
  ⟨by decide, (normalizeHandle_idempotent_of_at_most_one_at "@a" (by decide)).1⟩

/-- C2: in any session with `registered = false`, each of `send`, `poll`,
`heartbeat` and `consent` issues no request (empty request list) and returns
the structured failure `{success: false, error: "Not registered..."}`; each
error string begins with "Not registered". -/
theorem unregistered_ops_short_circuit (s : Session) (h : s.registered = false)
    (toHandle text : String) (ty : Option String) (since : Option Int)
    (handle : String) (action : Option String) (net : Except String Json) :
    send s toHandle text ty net =
      ([], Except.ok (Json.obj [("success", Json.bool false),
        ("error", Json.str "Not registered. Call airc_register first.")])) ∧
    poll s since net =
      ([], Except.ok (Json.obj [("success", Json.bool false),
        ("error", Json.str "Not registered. Call airc_register first.")])) ∧
    heartbeat s net =
      ([], Except.ok (Json.obj [("success", Json.bool false),
        ("error", Json.str "Not registered.")])) ∧
    consent s handle action net =
      ([], Except.ok (Json.obj [("success", Json.bool false),
        ("error", Json.str "Not registered.")])) := by
  refine ⟨?_, ?_, ?_, ?_⟩ <;> simp [send, poll, heartbeat, consent, h]

/-- Witness for C2 at the initial (unregistered) session. -/
theorem unregistered_ops_short_circuit_witness :
    send initialSession "a" "b" none (Except.ok Json.null) =
      ([], Except.ok (Json.obj [("success", Json.bool false),
        ("error", Json.str "Not registered. Call airc_register first.")])) :=
  (unregistered_ops_short_circuit initialSession rfl "a" "b" none none "c" none
    (Except.ok Json.null)).1

/-- C3 counterexample: a registry response whose `token` field is present but
is the empty string (falsy) satisfies the claim's hypothesis (`success`
truthy, `token` field present), yet `register` leaves the session at the
initial unregistered state and returns the failure object instead of the
claimed success. -/
theorem register_rejects_present_empty_token :
    (Json.obj [("success", Json.bool true), ("token", Json.str "")]).getField "token"
        ≠ Json.undefined ∧
    (Json.obj [("success", Json.bool true),
        ("token", Json.str "")]).getField "success" = Json.bool true ∧
    (register initialSession "bob" none
        (Except.ok (Json.obj [("success", Json.bool true), ("token", Json.str "")]))).2 =
      Except.ok (initialSession, Json.obj [("success", Json.bool false),
        ("error", Json.str "Registration failed")]) :=
  ⟨fun hcon => Json.noConfusion hcon, rfl, rfl⟩

/-- C3 (amended): if `register(h, w)` receives a registry response whose
`success` field is truthy and whose `token` field is present and truthy (for
a string token: non-empty), then the resulting session is
`{handle: h, token: <response token>, registered: true}` and the call returns
`{success: true, message: "Registered as @h"}`. -/
theorem register_accepted (s : Session) (handle : String) (workingOn : Option String)
    (r : Json) (hs : (r.getField "success").truthy = true)
    (ht : (r.getField "token").truthy = true) :
    register s handle workingOn (Except.ok r) =
      ([⟨"/api/presence", "POST",
          some (Json.obj [("action", Json.str "register"), ("username", Json.str handle),
            ("workingOn", Json.str (workingOn.getD "Using AIRC MCP"))])⟩],
       Except.ok
        ({ handle := Json.str handle, token := r.getField "token", registered := true },
          Json.obj [("success", Json.bool true),
            ("message", Json.str ("Registered as @" ++ handle))])) := by
  simp [register, hs, ht]

/-- Witness for C3 (amended): a concrete accepted registration. -/
theorem register_accepted_witness :
    register initialSession "bob" none
        (Except.ok (Json.obj [("success", Json.bool true), ("token", Json.str "T")])) =
      ([⟨"/api/presence", "POST",
          some (Json.obj [("action", Json.str "register"), ("username", Json.str "bob"),
            ("workingOn", Json.str "Using AIRC MCP")])⟩],
       Except.ok
        ({ handle := Json.str "bob", token := Json.str "T", registered := true },
          Json.obj [("success", Json.bool true),
            ("message", Json.str "Registered as @bob")])) :=
  register_accepted initialSession "bob" none
    (Json.obj [("success", Json.bool true), ("token", Json.str "T")]) rfl rfl

/-- C4 counterexample: a rejected registration whose response carries an
`error` field that is present but empty (falsy) returns
`error: "Registration failed"`, not the response's error field as the claim
states. -/
theorem register_rejected_empty_error_field :
    (Json.obj [("success", Json.bool false), ("error", Json.str "")]).getField "error"
        = Json.str "" ∧
    (register initialSession "bob" none
        (Except.ok (Json.obj [("success", Json.bool false), ("error", Json.str "")]))).2 =
      Except.ok (initialSession, Json.obj [("success", Json.bool false),
        ("error", Json.str "Registration failed")]) ∧
    Json.str "Registration failed" ≠ Json.str "" :=
  ⟨rfl, rfl, fun hcon => by simpa using Json.str.inj hcon⟩

/-- C4 (amended): if `register` receives a response in which `success` is not
truthy or the `token` field is absent, the session is left entirely unchanged
and the call returns `{success: false, error: e}` where `e` is the response's
`error` field when that field is present and truthy (for a string: non-empty),
and `"Registration failed"` otherwise. -/
theorem register_rejected (s : Session) (handle : String) (workingOn : Option String)
    (r : Json)
    (h : (r.getField "success").truthy = false ∨ r.getField "token" = Json.undefined) :
    (register s handle workingOn (Except.ok r)).2 =
      Except.ok (s, Json.obj [("success", Json.bool false),
        ("error", if (r.getField "error").truthy then r.getField "error"
          else Json.str "Registration failed")]) := by
  have hcond : ((r.getField "success").truthy && (r.getField "token").truthy) = false := by
    rcases h with h | h
    · simp [h]
    · simp [h, Json.truthy]
  simp [register, hcond, jsOr]

/-- Witness for C4 (amended): a concrete rejected registration
(`success: false`, `error: "taken"`). -/
theorem register_rejected_witness :
    (register initialSession "bob" none
        (Except.ok (Json.obj [("success", Json.bool false),
          ("error", Json.str "taken")]))).2 =
      Except.ok (initialSession, Json.obj [("success", Json.bool false),
        ("error", Json.str "taken")]) :=
  register_rejected initialSession "bob" none
    (Json.obj [("success", Json.bool false), ("error", Json.str "taken")])
    (Or.inl rfl)

/-- A truthy value is never `null`. -/
theorem truthy_ne_null {j : Json} (h : j.truthy = true) : j ≠ Json.null :=
  fun he => Bool.noConfusion (he ▸ h)

/-- Case analysis of one dispatched call's effect on the session: either the
session is unchanged, or the call was a registration whose response had
truthy `success` and truthy `token`, and the session became the freshly
registered one. -/
theorem step_cases (s : Session) (call : ToolCall) (net : Except String Json) :
    step s call net = s ∨
    ∃ h w r, call = ToolCall.register h w ∧ net = Except.ok r ∧
      (r.getField "success").truthy = true ∧ (r.getField "token").truthy = true ∧
      step s call net =
        { handle := Json.str h, token := r.getField "token", registered := true } := by
  cases call with
  | register h w =>
      cases net with
      | error e => exact Or.inl rfl
      | ok r =>
          cases hc : (r.getField "success").truthy && (r.getField "token").truthy with
          | false =>
              exact Or.inl (by simp [step, dispatch, runTool, register, hc])
          | true =>
              obtain ⟨h1, h2⟩ : (r.getField "success").truthy = true ∧
                  (r.getField "token").truthy = true := by simpa using hc
              exact Or.inr ⟨h, w, r, rfl, rfl, h1, h2,
                by simp [step, dispatch, runTool, register, hc]⟩
  | who => cases net <;> exact Or.inl rfl
  | send a b c =>
      refine Or.inl ?_
      cases net <;> by_cases hr : s.registered = false <;>
        simp [step, dispatch, runTool, send, hr, Except.map]
  | poll since =>
      refine Or.inl ?_
      cases net <;> by_cases hr : s.registered = false <;>
        simp [step, dispatch, runTool, poll, hr, Except.map]
  | heartbeat =>
      refine Or.inl ?_
      cases net <;> by_cases hr : s.registered = false <;>
        simp [step, dispatch, runTool, heartbeat, hr, Except.map]
  | consent a b =>
      refine Or.inl ?_
      cases net <;> by_cases hr : s.registered = false <;>
        simp [step, dispatch, runTool, consent, hr, Except.map]
  | discover args => cases net <;> exact Or.inl rfl
  | capabilities h => cases net <;> exact Or.inl rfl
  | unknown nm => cases net <;> exact Or.inl rfl

/-- One dispatched call preserves the session invariant. -/
theorem sessionConsistent_step (s : Session) (call : ToolCall)
    (net : Except String Json) (hs : sessionConsistent s) :
    sessionConsistent (step s call net) := by
  rcases step_cases s call net with heq | ⟨h, w, r, _, _, _, htok, heq⟩
  · rw [heq]; exact hs
  · rw [heq]
    exact ⟨⟨fun _ => truthy_ne_null htok, fun _ => rfl⟩,
      ⟨fun _ => fun hcon => Json.noConfusion hcon, fun _ => rfl⟩⟩

/-- A trace of dispatched calls preserves the session invariant. -/
theorem sessionConsistent_runTrace (tr : List (ToolCall × Except String Json)) :
    ∀ s, sessionConsistent s → sessionConsistent (runTrace s tr) := by
  induction tr with
  | nil => exact fun s hs => hs
  | cons c rest ih =>
      exact fun s hs => ih _ (sessionConsistent_step s c.1 c.2 hs)

/-- C5: every session reachable from the initial state by any sequence of
tool calls with arbitrary registry interactions satisfies
`registered = true` iff `token` is non-null iff `handle` is non-null; and a
dispatched call changes the session only if it is a `register` whose response
had truthy `success` and a truthy (hence present) `token`. -/
theorem session_invariant_and_mutation :
    (∀ s : Session, reachable s → sessionConsistent s) ∧
    (∀ (s : Session) (call : ToolCall) (net : Except String Json),
      step s call net ≠ s →
      ∃ h w r, call = ToolCall.register h w ∧ net = Except.ok r ∧
        (r.getField "success").truthy = true ∧ (r.getField "token").truthy = true) := by
  constructor
  · rintro s ⟨tr, rfl⟩
    exact sessionConsistent_runTrace tr initialSession
      ⟨⟨fun hcon => Bool.noConfusion hcon, fun hne => absurd rfl hne⟩,
       ⟨fun hcon => Bool.noConfusion hcon, fun hne => absurd rfl hne⟩⟩
  · intro s call net hne
    rcases step_cases s call net with heq | ⟨h, w, r, hc, hn, h1, h2, _⟩
    · exact absurd heq hne
    · exact ⟨h, w, r, hc, hn, h1, h2⟩

/-- Witness for C5: the initial session is reachable (empty trace) and
satisfies the invariant. -/
theorem session_invariant_witness : sessionConsistent initialSession :=
  session_invariant_and_mutation.1 initialSession ⟨[], rfl⟩

/-- C6: when the registry response lacks the expected list field, `who`
returns the empty list, and `poll` in a registered session returns the empty
list; both return normally (an `Except.ok` value, never null, never an
exception). -/
theorem missing_list_fields_default_empty (r1 r2 : Json) (s : Session)
    (since : Option Int)
    (h1 : r1.getField "users" = Json.undefined)
    (h2 : r2.getField "messages" = Json.undefined)
    (hreg : s.registered = true) :
    (who (Except.ok r1)).2 = Except.ok (Json.arr []) ∧
    (poll s since (Except.ok r2)).2 = Except.ok (Json.arr []) := by
  constructor
  · simp [who, Except.map, h1, jsOr, Json.truthy]
  · simp [poll, hreg, Except.map, h2, jsOr, Json.truthy]

/-- Witness for C6: empty-object responses. -/
theorem missing_list_fields_witness :
    (who (Except.ok (Json.obj []))).2 = Except.ok (Json.arr []) ∧
    (poll { handle := Json.str "me", token := Json.str "T", registered := true }
        none (Except.ok (Json.obj []))).2 = Except.ok (Json.arr []) :=
  missing_list_fields_default_empty (Json.obj []) (Json.obj [])
    { handle := Json.str "me", token := Json.str "T", registered := true }
    none rfl rfl rfl

/-- A value that is not strictly the boolean `false` satisfies `!== false`. -/
theorem jsNotStrictFalse_of_ne {j : Json} (h : j ≠ Json.bool false) :
    jsNotStrictFalse j = true := by
  cases j with
  | bool b =>
      cases b with
      | false => exact absurd rfl h
      | true => rfl
  | undefined => rfl
  | null => rfl
  | num n => rfl
  | str s => rfl
  | arr es => rfl
  | obj fs => rfl

/-- C7: for a registry response without an `error` field, `capabilities`
returns the shaped success result; in it, `capabilities` defaults to
`['text']` when `capabilities.supported` is absent, `availability` defaults
to `'unknown'` when `availability.status` is absent, and `accepts_messages`
is true unless `availability.accepts_messages` is strictly `false`. -/
theorem capabilities_defensive_defaults (handle : String) (r : Json)
    (herr : r.getField "error" = Json.undefined) :
    (capabilities handle (Except.ok r)).2 = Except.ok (capabilitiesResult r) ∧
    (capabilitiesResult r).getField "success" = Json.bool true ∧
    ((r.getField "capabilities").getField "supported" = Json.undefined →
      (capabilitiesResult r).getField "capabilities" = Json.arr [Json.str "text"]) ∧
    ((r.getField "availability").getField "status" = Json.undefined →
      (capabilitiesResult r).getField "availability" = Json.str "unknown") ∧
    ((r.getField "availability").getField "accepts_messages" ≠ Json.bool false →
      (capabilitiesResult r).getField "accepts_messages" = Json.bool true) := by
  have hres : capabilitiesResult r =
      Json.obj [("success", Json.bool true),
        ("handle", Json.str ("@" ++ (r.getField "handle").jsString)),
        ("is_agent", r.getField "is_agent"),
        ("type", r.getField "type"),
        ("model", r.getField "model"),
        ("capabilities", jsOr ((r.getField "capabilities").getField "supported")
          (Json.arr [Json.str "text"])),
        ("primary_capability", jsOr ((r.getField "capabilities").getField "primary")
          (Json.str "text")),
        ("availability", jsOr ((r.getField "availability").getField "status")
          (Json.str "unknown")),
        ("accepts_messages",
          Json.bool (jsNotStrictFalse ((r.getField "availability").getField "accepts_messages"))),
        ("input_schemas", r.getField "input_schemas"),
        ("examples", r.getField "examples"),
        ("suggestion", Json.str
          (if jsStrictEqStr ((r.getField "availability").getField "status") "offline" then
            "Agent is offline. Message will be delivered when they return."
          else
            "Agent is available. Use airc_send to message them."))] := by
    simp only [capabilitiesResult, herr]
    rfl
  refine ⟨rfl, ?_, ?_, ?_, ?_⟩
  · rw [hres]; rfl
  · intro hsup
    rw [hres]
    show jsOr ((r.getField "capabilities").getField "supported")
      (Json.arr [Json.str "text"]) = Json.arr [Json.str "text"]
    rw [hsup]; rfl
  · intro hst
    rw [hres]
    show jsOr ((r.getField "availability").getField "status")
      (Json.str "unknown") = Json.str "unknown"
    rw [hst]; rfl
  · intro hacc
    rw [hres]
    show Json.bool (jsNotStrictFalse ((r.getField "availability").getField "accepts_messages"))
      = Json.bool true
    rw [jsNotStrictFalse_of_ne hacc]

/-- Witness for C7: the empty-object response (all fields absent). -/
theorem capabilities_defaults_witness :
    (capabilitiesResult (Json.obj [])).getField "capabilities"
        = Json.arr [Json.str "text"] ∧
    (capabilitiesResult (Json.obj [])).getField "availability" = Json.str "unknown" ∧
    (capabilitiesResult (Json.obj [])).getField "accepts_messages" = Json.bool true :=
  ⟨(capabilities_defensive_defaults "x" (Json.obj []) rfl).2.2.1 rfl,
   (capabilities_defensive_defaults "x" (Json.obj []) rfl).2.2.2.1 rfl,
   (capabilities_defensive_defaults "x" (Json.obj []) rfl).2.2.2.2
     (fun hcon => Json.noConfusion hcon)⟩

/-- C8 counterexample: with `capability` supplied as the empty string (a
present but falsy filter) and `limit` supplied as `0` (present but falsy),
the built query omits `capability` entirely and sets `limit=10`, against the
claim that present filters always appear and a present `limit` is used. -/
theorem discover_params_falsy_counterexample :
    (DiscoverOptions.mk (Json.str "") Json.undefined Json.undefined Json.undefined Json.undefined
        (Json.num 0)).capability ≠ Json.undefined ∧
    (discoverParams (DiscoverOptions.mk (Json.str "") Json.undefined Json.undefined Json.undefined
        Json.undefined (Json.num 0))).lookup "capability" = none ∧
    (DiscoverOptions.mk (Json.str "") Json.undefined Json.undefined Json.undefined Json.undefined
        (Json.num 0)).limit = Json.num 0 ∧
    (discoverParams (DiscoverOptions.mk (Json.str "") Json.undefined Json.undefined Json.undefined
        Json.undefined (Json.num 0))).lookup "limit" = some "10" :=
  ⟨fun hcon => Json.noConfusion hcon, rfl, rfl, rfl⟩

/-- Lookup of the `capability` parameter in the built query. -/
theorem discoverParams_lookup_capability (o : DiscoverOptions) :
    (discoverParams o).lookup "capability" =
      (if o.capability.truthy then some o.capability.jsString else none) := by
  unfold discoverParams
  by_cases h1 : o.capability.truthy = true <;>
  by_cases h2 : o.type.truthy = true <;>
  by_cases h3 : o.model.truthy = true <;>
  by_cases h4 : o.query.truthy = true <;>
  by_cases h5 : jsNotStrictFalse o.available = true <;>
    (simp only [h1, h2, h3, h4, h5, if_true, if_false]; rfl)

/-- Lookup of the `type` parameter in the built query. -/
theorem discoverParams_lookup_type (o : DiscoverOptions) :
    (discoverParams o).lookup "type" =
      (if o.type.truthy then some o.type.jsString else none) := by
  unfold discoverParams
  by_cases h1 : o.capability.truthy = true <;>
  by_cases h2 : o.type.truthy = true <;>
  by_cases h3 : o.model.truthy = true <;>
  by_cases h4 : o.query.truthy = true <;>
  by_cases h5 : jsNotStrictFalse o.available = true <;>
    (simp only [h1, h2, h3, h4, h5, if_true, if_false]; rfl)

/-- Lookup of the `model` parameter in the built query. -/
theorem discoverParams_lookup_model (o : DiscoverOptions) :
    (discoverParams o).lookup "model" =
      (if o.model.truthy then some o.model.jsString else none) := by
  unfold discoverParams
  by_cases h1 : o.capability.truthy = true <;>
  by_cases h2 : o.type.truthy = true <;>
  by_cases h3 : o.model.truthy = true <;>
  by_cases h4 : o.query.truthy = true <;>
  by_cases h5 : jsNotStrictFalse o.available = true <;>
    (simp only [h1, h2, h3, h4, h5, if_true, if_false]; rfl)

/-- Lookup of the `q` parameter in the built query. -/
theorem discoverParams_lookup_q (o : DiscoverOptions) :
    (discoverParams o).lookup "q" =
      (if o.query.truthy then some o.query.jsString else none) := by
  unfold discoverParams
  by_cases h1 : o.capability.truthy = true <;>
  by_cases h2 : o.type.truthy = true <;>
  by_cases h3 : o.model.truthy = true <;>
  by_cases h4 : o.query.truthy = true <;>
  by_cases h5 : jsNotStrictFalse o.available = true <;>
    (simp only [h1, h2, h3, h4, h5, if_true, if_false]; rfl)

/-- Lookup of the `available` parameter in the built query. -/
theorem discoverParams_lookup_available (o : DiscoverOptions) :
    (discoverParams o).lookup "available" =
      (if jsNotStrictFalse o.available then some "true" else none) := by
  unfold discoverParams
  by_cases h1 : o.capability.truthy = true <;>
  by_cases h2 : o.type.truthy = true <;>
  by_cases h3 : o.model.truthy = true <;>
  by_cases h4 : o.query.truthy = true <;>
  by_cases h5 : jsNotStrictFalse o.available = true <;>
    (simp only [h1, h2, h3, h4, h5, if_true, if_false]; rfl)

/-- Lookup of the `limit` parameter in the built query. -/
theorem discoverParams_lookup_limit (o : DiscoverOptions) :
    (discoverParams o).lookup "limit" =
      some ((jsOr o.limit (Json.str "10")).jsString) := by
  unfold discoverParams
  by_cases h1 : o.capability.truthy = true <;>
  by_cases h2 : o.type.truthy = true <;>
  by_cases h3 : o.model.truthy = true <;>
  by_cases h4 : o.query.truthy = true <;>
  by_cases h5 : jsNotStrictFalse o.available = true <;>
    (simp only [h1, h2, h3, h4, h5, if_true, if_false]; rfl)

/-- C8 (amended): `discover` builds its query from the supplied-and-truthy
filters only — `capability`, `type`, `model` and `query` (as `q`) appear
exactly when supplied with a truthy value (for strings: non-empty);
`available=true` is included unless `options.available` is strictly `false`;
and `limit` is the string coercion of `options.limit` when that is truthy
(present and non-zero), and `"10"` otherwise. -/
theorem discover_params_characterization (o : DiscoverOptions) :
    (discoverParams o).lookup "capability" =
      (if o.capability.truthy then some o.capability.jsString else none) ∧
    (discoverParams o).lookup "type" =
      (if o.type.truthy then some o.type.jsString else none) ∧
    (discoverParams o).lookup "model" =
      (if o.model.truthy then some o.model.jsString else none) ∧
    (discoverParams o).lookup "q" =
      (if o.query.truthy then some o.query.jsString else none) ∧
    (discoverParams o).lookup "available" =
      (if jsNotStrictFalse o.available then some "true" else none) ∧
    (discoverParams o).lookup "limit" = some ((jsOr o.limit (Json.str "10")).jsString) :=
  ⟨discoverParams_lookup_capability o, discoverParams_lookup_type o,
   discoverParams_lookup_model o, discoverParams_lookup_q o,
   discoverParams_lookup_available o, discoverParams_lookup_limit o⟩

/-- C9: every exception raised inside the dispatcher's `try` block — the
`Unknown tool` error thrown for names outside the catalog, and any
network-layer exception surfacing from an operation — is caught and
converted into the envelope `{content: [{type: "text", text: {error:
message}}], isError: true}`, leaving the session untouched; the dispatcher
itself is total and never propagates the exception. -/
theorem dispatcher_error_boundary :
    (∀ (s : Session) (nm : String) (net : Except String Json),
      dispatch s (ToolCall.unknown nm) net =
        (s, { content :=
                [{ type := "text",
                   text := Json.obj [("error", Json.str ("Unknown tool: " ++ nm))] }],
              isError := true })) ∧
    (∀ (s : Session) (call : ToolCall) (net : Except String Json) (e : String),
      runTool s call net = Except.error e →
      dispatch s call net =
        (s, { content :=
                [{ type := "text",
                   text := Json.obj [("error", Json.str e)] }],
              isError := true })) := by
  constructor
  · intro s nm net; rfl
  · intro s call net e h
    unfold dispatch
    rw [h]

/-- Witness for C9: an unknown tool name, and a network exception inside
`who`, both at concrete inputs. -/
theorem dispatcher_error_boundary_witness :
    dispatch initialSession (ToolCall.unknown "nope") (Except.ok Json.null) =
      (initialSession,
        { content :=
            [{ type := "text",
               text := Json.obj [("error", Json.str "Unknown tool: nope")] }],
          isError := true }) ∧
    dispatch initialSession ToolCall.who (Except.error "boom") =
      (initialSession,
        { content :=
            [{ type := "text",
               text := Json.obj [("error", Json.str "boom")] }],
          isError := true }) :=
  ⟨dispatcher_error_boundary.1 initialSession "nope" (Except.ok Json.null),
   dispatcher_error_boundary.2 initialSession ToolCall.who (Except.error "boom")
     "boom" rfl⟩

/-- C10: the dispatcher forwards only `capability`, `query`, `type`, `model`
and `available` to `discover` and never a `limit` (the built options record
has `limit` reading as `undefined`), so the outbound query's `limit`
parameter is always `"10"`, whatever the caller passed. -/
theorem dispatcher_discover_limit_always_ten (args : DiscoverArgs) :
    (dispatchDiscoverOptions args).limit = Json.undefined ∧
    (discoverParams (dispatchDiscoverOptions args)).lookup "limit" = some "10" :=
  ⟨rfl, discoverParams_lookup_limit (dispatchDiscoverOptions args)⟩
